import Mathlib

/-!
Verification development for the multi-threaded TCP chat server
(week1/chat_server.py).

The server is embedded shallowly:

* A connection (socket) is identified by a natural number; identity
  comparison (Python "is") on sockets becomes equality of identifiers.
* The client registry (the Python dict "self.clients", insertion ordered,
  socket -> nickname) is an association list "List (Nat × String)".
* I/O and locking are made observable as a trace of events: acquiring and
  releasing "self.clients_lock", a successful "_send_text" of one frame
  (the text without the trailing newline added by the transport), and
  closing a socket.
* A write that raises is modelled by a predicate "fails" on sockets:
  "fails s = true" means "_send_text" to socket "s" raises, so no send
  event is produced for it and the broadcast path treats it as dead.

String handling follows Python: "str.strip()" trims whitespace from both
ends, "raw.split(' ', 2)" splits on single spaces with at most two splits
(empty fields are kept), "startswith" is a prefix test on characters.
-/

/-- One observable action of the server. -/
inductive Ev where
  | acquire : Ev
  | release : Ev
  | send : Nat → String → Ev
  | close : Nat → Ev
deriving DecidableEq, Repr

/-- The client registry: insertion-ordered mapping socket -> nickname,
mirroring the Python dict "self.clients". -/
abbrev Registry := List (Nat × String)

/-- Whitespace characters trimmed by Python "str.strip()" (the ASCII ones,
which are the only ones the protocol can produce here). -/
def isPySpace (c : Char) : Bool :=
  c == ' ' || c == '\t' || c == '\n' || c == '\r' || c == '\x0b' || c == '\x0c'

/-- Python "str.strip()": drop whitespace from both ends. -/
def pyStrip (s : String) : String :=
  String.mk (((s.data.dropWhile isPySpace).reverse.dropWhile isPySpace).reverse)

/-- Split a character list at its first space: the part before it and,
when a space exists, the remainder after it. -/
def splitHead : List Char → List Char × Option (List Char)
  | [] => ([], none)
  | c :: rest =>
    if c == ' ' then ([], some rest)
    else
      let r := splitHead rest
      (c :: r.1, r.2)

/-- Python "raw.split(' ', 2)": split on single spaces, at most two splits,
empty fields kept.  Produces one, two or three fields. -/
def pySplit2 (s : String) : List String :=
  match splitHead s.data with
  | (t0, none) => [String.mk t0]
  | (t0, some r1) =>
    match splitHead r1 with
    | (t1, none) => [String.mk t0, String.mk t1]
    | (t1, some r2) => [String.mk t0, String.mk t1, String.mk r2]

/-- Python "s.startswith(p)": is p a character-wise initial segment? -/
def charsLead : List Char → List Char → Bool
  | [], _ => true
  | _ :: _, [] => false
  | p :: ps, c :: cs => p == c && charsLead ps cs

/-- "msg.startswith(p)" on strings. -/
def strLeads (p s : String) : Bool :=
  charsLead p.data s.data

/-- The quit command token recognised by the message loop. -/
def quitToken : String := "/종료"

/-- Farewell frame sent to a quitting client. -/
def byeText : String := "서버> 연결을 종료합니다. 안녕히 가세요."

/-- Usage notice for a malformed whisper command. -/
def usageText : String := "서버> 사용법: /w 닉네임 메시지"

/-- Notice for a whisper whose target nickname is not registered. -/
def notFoundText (targetName : String) : String :=
  "서버> 대상 닉네임을 찾을 수 없습니다: " ++ targetName

/-- Frame delivered to the target of a whisper. -/
def whisperText (sender body : String) : String :=
  "(귓속말) " ++ sender ++ "> " ++ body

/-- Confirmation frame delivered to the sender of a whisper. -/
def whisperSentText (sender targetName body : String) : String :=
  "(귓속말 보냄) " ++ sender ++ " -> " ++ targetName ++ "> " ++ body

/-- Chat frame format of "_broadcast_chat". -/
def chatText (nickname message : String) : String :=
  nickname ++ "> " ++ message

/-- System frame format of "_broadcast_system". -/
def systemText (message : String) : String :=
  "서버> " ++ message

/-- Join announcement body. -/
def joinText (nickname : String) : String :=
  nickname ++ "님이 입장하셨습니다."

/-- Departure announcement body. -/
def leaveText (nickname : String) : String :=
  nickname ++ "님이 퇴장하셨습니다."

/-- "_find_socket_by_name": scan the registry in insertion order and return
the first socket whose nickname matches. -/
def findSocketByName : Registry → String → Option Nat
  | [], _ => none
  | (sock, nick) :: rest, name =>
    if nick == name then some sock else findSocketByName rest name

/-- Python dict assignment "self.clients[client_socket] = nickname": update
in place when the key is present (keeping its position), else append. -/
def registryInsert : Registry → Nat → String → Registry
  | [], sock, nick => [(sock, nick)]
  | p :: rest, sock, nick =>
    if p.1 == sock then (sock, nick) :: rest
    else p :: registryInsert rest sock nick

/-- Python dict "pop": remove the entry for the socket when present and
return its nickname, else leave the registry unchanged and return none. -/
def registryRemove : Registry → Nat → Registry × Option String
  | [], _ => ([], none)
  | p :: rest, sock =>
    if p.1 == sock then (rest, some p.2)
    else
      let r := registryRemove rest sock
      (p :: r.1, r.2)

/-- "_broadcast": under the registry lock, attempt to send the text to every
registered socket in order; sockets whose send raised are then popped from
the registry and closed, still under the lock, and no announcement is made
for them.  Returns the trace and the updated registry. -/
def broadcast (clients : Registry) (fails : Nat → Bool) (text : String) :
    List Ev × Registry :=
  let sends := clients.filterMap
    (fun p => if fails p.1 then none else some (Ev.send p.1 text))
  let closes := clients.filterMap
    (fun p => if fails p.1 then some (Ev.close p.1) else none)
  let remaining := clients.filter (fun p => !(fails p.1))
  (Ev.acquire :: (sends ++ closes ++ [Ev.release]), remaining)

/-- "_broadcast_chat": broadcast a chat line as "nickname> message". -/
def broadcastChat (clients : Registry) (fails : Nat → Bool)
    (nickname message : String) : List Ev × Registry :=
  broadcast clients fails (chatText nickname message)

/-- "_broadcast_system": broadcast a system line as "서버> message". -/
def broadcastSystem (clients : Registry) (fails : Nat → Bool)
    (message : String) : List Ev × Registry :=
  broadcast clients fails (systemText message)

/-- "_handle_whisper": parse "raw" with split(' ', 2); fewer than three
fields gives a usage notice to the sender only; otherwise resolve the
target nickname, report an unknown target to the sender only, and on
success deliver to the target and, unless the target socket is the
sender's own socket, a confirmation to the sender. -/
def handleWhisper (clients : Registry) (sender raw : String)
    (clientSock : Nat) : List Ev :=
  let parts := pySplit2 raw
  if parts.length < 3 then
    [Ev.send clientSock usageText]
  else
    match parts with
    | [_, targetName, body] =>
      match findSocketByName clients targetName with
      | none => [Ev.send clientSock (notFoundText targetName)]
      | some targetSock =>
        if targetSock == clientSock then
          [Ev.send targetSock (whisperText sender body)]
        else
          [Ev.send targetSock (whisperText sender body),
           Ev.send clientSock (whisperSentText sender targetName body)]
    | _ => []

/-- Session continuation after one line of the message loop. -/
inductive SessionStep where
  | active : SessionStep
  | closing : SessionStep
deriving DecidableEq, Repr

/-- One iteration of the "_handle_client" message loop on a non-empty
received chunk "data": strip it, then classify it as quit command, whisper
command, or plain chat line to broadcast. -/
def handleLine (clients : Registry) (fails : Nat → Bool) (nickname : String)
    (clientSock : Nat) (data : String) : List Ev × Registry × SessionStep :=
  let msg := pyStrip data
  if msg == quitToken then
    ([Ev.send clientSock byeText], clients, SessionStep.closing)
  else if strLeads "/w " msg || strLeads "/귓속말 " msg then
    (handleWhisper clients nickname msg clientSock, clients,
     SessionStep.active)
  else
    let r := broadcastChat clients fails nickname msg
    (r.1, r.2, SessionStep.active)

/-- Registration phase of "_handle_client": strip the first received line;
if the nickname is empty, close the connection and stop without touching
the registry; otherwise register under the lock and broadcast the join
announcement.  The boolean records whether the session was registered. -/
def registerFirstLine (clients : Registry) (fails : Nat → Bool)
    (clientSock : Nat) (firstData : String) : List Ev × Registry × Bool :=
  let nickname := pyStrip firstData
  if nickname == "" then
    ([Ev.close clientSock], clients, false)
  else
    let clients1 := registryInsert clients clientSock nickname
    let r := broadcastSystem clients1 fails (joinText nickname)
    (r.1, r.2, true)

/-- Cleanup phase of "_handle_client" (the finally block): pop the socket
from the registry under the lock, keeping the previously known nickname
when the socket was already removed, close the socket, and broadcast the
departure announcement when a nickname is known. -/
def cleanup (clients : Registry) (fails : Nat → Bool) (clientSock : Nat)
    (nickname : String) : List Ev × Registry :=
  let r := registryRemove clients clientSock
  let nickname1 := match r.2 with
    | some n => n
    | none => nickname
  if nickname1 == "" then
    ([Ev.close clientSock], r.1)
  else
    let b := broadcastSystem r.1 fails (leaveText nickname1)
    (Ev.close clientSock :: b.1, b.2)

/-- Is some send event performed at a moment the lock is not held, scanning
the trace with the current lock state? -/
def existsSendOutsideLock : List Ev → Bool → Bool
  | [], _ => false
  | Ev.acquire :: rest, _ => existsSendOutsideLock rest true
  | Ev.release :: rest, _ => existsSendOutsideLock rest false
  | Ev.send _ _ :: rest, held => !held || existsSendOutsideLock rest held
  | Ev.close _ :: rest, held => existsSendOutsideLock rest held

/-- Is some send event performed while the lock is held, scanning the trace
with the current lock state? -/
def existsSendUnderLock : List Ev → Bool → Bool
  | [], _ => false
  | Ev.acquire :: rest, _ => existsSendUnderLock rest true
  | Ev.release :: rest, _ => existsSendUnderLock rest false
  | Ev.send _ _ :: rest, held => held || existsSendUnderLock rest held
  | Ev.close _ :: rest, held => existsSendUnderLock rest held

/-! ### Helper lemmas -/

/-- Every send event a broadcast emits carries the broadcast payload: the
dead-removal path inside broadcast never emits an announcement of its own. -/
theorem broadcast_send_payload {clients : Registry} {fails : Nat → Bool}
    {text payload : String} {s : Nat}
    (h : Ev.send s payload ∈ (broadcast clients fails text).1) :
    payload = text := by
  simp only [broadcast, List.mem_cons, List.mem_append, List.mem_filterMap,
    List.mem_singleton] at h
  rcases h with h | (⟨a, _, ha⟩ | ⟨a, _, ha⟩) | h
  · exact absurd h (by simp)
  · by_cases hf : fails a.1 <;> simp [hf] at ha
    exact ha.2.symm
  · by_cases hf : fails a.1 <;> simp [hf] at ha
  · exact absurd h (by simp)

/-- A registered connection whose write does not fail receives the
broadcast payload. -/
theorem broadcast_send_of_mem {clients : Registry} {fails : Nat → Bool}
    {text : String} {p : Nat × String} (hp : p ∈ clients)
    (hf : fails p.1 = false) :
    Ev.send p.1 text ∈ (broadcast clients fails text).1 := by
  simp only [broadcast, List.mem_cons, List.mem_append, List.mem_filterMap]
  exact Or.inr (Or.inl (Or.inl ⟨p, hp, by simp [hf]⟩))

/-- Every element of the send part of a broadcast trace is a send event. -/
theorem mem_sends_shape {clients : Registry} {fails : Nat → Bool}
    {text : String} {e : Ev}
    (h : e ∈ clients.filterMap
      (fun p => if fails p.1 then none else some (Ev.send p.1 text))) :
    ∃ s u, e = Ev.send s u := by
  rcases List.mem_filterMap.mp h with ⟨a, _, ha⟩
  by_cases hf : fails a.1 <;> simp [hf] at ha
  exact ⟨a.1, text, ha.symm⟩

/-- Every element of the close part of a broadcast trace is a close event. -/
theorem mem_closes_shape {clients : Registry} {fails : Nat → Bool} {e : Ev}
    (h : e ∈ clients.filterMap
      (fun p => if fails p.1 then some (Ev.close p.1) else none)) :
    ∃ s, e = Ev.close s := by
  rcases List.mem_filterMap.mp h with ⟨a, _, ha⟩
  by_cases hf : fails a.1 <;> simp [hf] at ha
  exact ⟨a.1, ha.symm⟩

/-- Scanning past send and close events does not change the lock state. -/
theorem existsSendOutsideLock_append (l : List Ev)
    (hl : ∀ e ∈ l, (∃ s u, e = Ev.send s u) ∨ ∃ s, e = Ev.close s)
    (rest : List Ev) :
    existsSendOutsideLock (l ++ rest) true = existsSendOutsideLock rest true := by
  induction l with
  | nil => rfl
  | cons e l ih =>
    have ih1 := ih (fun x hx => hl x (by simp [hx]))
    rcases hl e (by simp) with ⟨s, u, rfl⟩ | ⟨s, rfl⟩ <;>
      simp [existsSendOutsideLock, ih1]

/-- The value popped by a removal is the nickname the registry associates
with the socket (the first matching entry). -/
theorem registryRemove_snd (clients : Registry) (sock : Nat) :
    (registryRemove clients sock).2 = List.lookup sock clients := by
  induction clients with
  | nil => rfl
  | cons p rest ih =>
    obtain ⟨k, v⟩ := p
    by_cases h : k = sock
    · simp [registryRemove, List.lookup, h, ih]
    · have hb : (sock == k) = false :=
        beq_eq_false_iff_ne.mpr (fun hh => h hh.symm)
      simp [registryRemove, List.lookup, h, hb, ih]

/-- With no duplicate socket keys, a removed socket keys no remaining
entry. -/
theorem registryRemove_not_mem (clients : Registry) (sock : Nat)
    (hnd : (clients.map Prod.fst).Nodup) :
    ∀ p ∈ (registryRemove clients sock).1, p.1 ≠ sock := by
  induction clients with
  | nil => intro p hp; exact absurd hp (by simp [registryRemove])
  | cons q rest ih =>
    intro p hp
    rw [List.map_cons, List.nodup_cons] at hnd
    by_cases h : q.1 = sock
    · simp [registryRemove, h] at hp
      intro hps
      exact hnd.1 (by rw [h, ← hps]; exact List.mem_map_of_mem Prod.fst hp)
    · simp [registryRemove, h] at hp
      rcases hp with rfl | hp
      · exact h
      · exact ih hnd.2 p hp

/-- Removing a socket that keys no entry leaves the registry unchanged and
returns none. -/
theorem registryRemove_of_not_mem (clients : Registry) (sock : Nat)
    (h : ∀ p ∈ clients, p.1 ≠ sock) :
    registryRemove clients sock = (clients, none) := by
  induction clients with
  | nil => rfl
  | cons q rest ih =>
    have hq : q.1 ≠ sock := h q (by simp)
    have ihr := ih (fun p hp => h p (by simp [hp]))
    simp [registryRemove, hq, ihr]

/-- A string beginning with a prefix the quit token does not begin with is
not the quit token. -/
theorem ne_quit_of_lead (p msg : String) (hp : strLeads p quitToken = false)
    (h : strLeads p msg = true) : (msg == quitToken) = false := by
  rw [beq_eq_false_iff_ne]
  intro hEq
  rw [hEq, hp] at h
  exact absurd h (by simp)

/-- A frame consisting only of whitespace strips to the empty string. -/
theorem pyStrip_of_all_space (s : String) (h : s.data.all isPySpace = true) :
    pyStrip s = "" := by
  have h1 : s.data.dropWhile isPySpace = [] :=
    List.dropWhile_eq_nil_iff.mpr (fun x hx => List.all_eq_true.mp h x hx)
  simp [pyStrip, h1]

/-- The freshly inserted entry is in the registry after insertion. -/
theorem registryInsert_self_mem (clients : Registry) (sock : Nat)
    (nick : String) : (sock, nick) ∈ registryInsert clients sock nick := by
  induction clients with
  | nil => simp [registryInsert]
  | cons q rest ih =>
    by_cases h : q.1 = sock <;> simp [registryInsert, h, ih]

/-- Insertion preserves every previously registered socket: some entry with
the same socket key survives. -/
theorem registryInsert_key_mem (clients : Registry) (sock : Nat)
    (nick : String) {p : Nat × String} (hp : p ∈ clients) :
    ∃ q ∈ registryInsert clients sock nick, q.1 = p.1 := by
  induction clients with
  | nil => exact absurd hp (by simp)
  | cons r rest ih =>
    rcases List.mem_cons.mp hp with rfl | hp1
    · by_cases h : p.1 = sock
      · exact ⟨(sock, nick), by simp [registryInsert, h], h.symm⟩
      · exact ⟨p, by simp [registryInsert, h], rfl⟩
    · by_cases h : r.1 = sock
      · exact ⟨p, by simp [registryInsert, h, hp1], rfl⟩
      · rcases ih hp1 with ⟨q, hq, hqp⟩
        exact ⟨q, by simp [registryInsert, h, hq], hqp⟩

/-! ### Claim theorems -/

/-- Claim C1, counterexample: with sessions A (socket 0), B (socket 1) and
C (socket 2) registered, when A sends the chat line "hello" the trace of
the message-loop step contains a send of the frame "A> hello" to A itself,
so A does receive its own message echoed back as a chat line, contrary to
the claim. -/
theorem chat_no_self_echo_counterexample :
    Ev.send 0 (chatText "A" "hello") ∈
      (handleLine [(0, "A"), (1, "B"), (2, "C")] (fun _ => false)
        "A" 0 "hello").1 := by
  decide

/-- Claim C1, amended: with sessions A, B, C registered, when A sends the
chat line "hello", every registered session, A itself included, receives
exactly one frame "A> hello" - the reference implementation iterates the
whole registry and echoes the sender's own chat line back to the sender. -/
theorem chat_broadcast_fanout_with_echo :
    (handleLine [(0, "A"), (1, "B"), (2, "C")] (fun _ => false)
      "A" 0 "hello").1 =
    [Ev.acquire, Ev.send 0 "A> hello", Ev.send 1 "A> hello",
     Ev.send 2 "A> hello", Ev.release] := by
  decide

/-- Claim C3, counterexample: broadcasting to a registry holding one
connection performs its per-recipient write while the registry lock is
held, so the lock is not released before the writes and no snapshot is
iterated outside the lock, contrary to the claim. -/
theorem broadcast_snapshot_counterexample :
    existsSendUnderLock
      (broadcast [(0, "A")] (fun _ => false) "hi").1 false = true := by
  decide

/-- Claim C3, amended: every broadcast acquires the registry lock and
performs all of its per-recipient writes while holding it - no write is
ever performed with the lock free, and every registered connection whose
write does not fail receives the payload during that locked section. -/
theorem broadcast_writes_under_lock (clients : Registry)
    (fails : Nat → Bool) (text : String) :
    existsSendOutsideLock (broadcast clients fails text).1 false = false ∧
    ∀ p ∈ clients, fails p.1 = false →
      Ev.send p.1 text ∈ (broadcast clients fails text).1 := by
  constructor
  · have h1 := existsSendOutsideLock_append
      (clients.filterMap
        (fun p => if fails p.1 then none else some (Ev.send p.1 text)))
      (fun e he => Or.inl (mem_sends_shape he))
      ((clients.filterMap
        (fun p => if fails p.1 then some (Ev.close p.1) else none))
        ++ [Ev.release])
    have h2 := existsSendOutsideLock_append
      (clients.filterMap
        (fun p => if fails p.1 then some (Ev.close p.1) else none))
      (fun e he => Or.inr (mem_closes_shape he))
      [Ev.release]
    show existsSendOutsideLock (_ ++ _ ++ [Ev.release]) true = false
    rw [List.append_assoc, h1, h2]
    rfl
  · intro p hp hf
    exact broadcast_send_of_mem hp hf

/-- Claim C3, amended, witness: in a concrete one-connection registry the
broadcast delivers the payload to that connection. -/
theorem broadcast_writes_under_lock_witness :
    Ev.send 0 "hi" ∈ (broadcast [(0, "A")] (fun _ => false) "hi").1 :=
  (broadcast_writes_under_lock [(0, "A")] (fun _ => false) "hi").2
    (0, "A") (by decide) (by decide)

/-- Claim C4: a session whose first received line is empty after trimming
is closed without any broadcast and without touching the registry - the
step produces exactly one close event, returns the registry unchanged, and
reports the session as not registered. -/
theorem empty_nickname_rejected (clients : Registry) (fails : Nat → Bool)
    (clientSock : Nat) (firstData : String)
    (h : pyStrip firstData = "") :
    registerFirstLine clients fails clientSock firstData =
      ([Ev.close clientSock], clients, false) := by
  simp [registerFirstLine, h]

/-- Claim C4, witness: a first line of pure whitespace is rejected without
registration. -/
theorem empty_nickname_rejected_witness :
    registerFirstLine [(1, "B")] (fun _ => false) 0 "  \n" =
      ([Ev.close 0], [(1, "B")], false) :=
  empty_nickname_rejected [(1, "B")] (fun _ => false) 0 "  \n" (by decide)

/-- Claim C7: a whisper whose target nickname is absent from the registry
produces exactly one send event, the target-not-found notice naming the
target, addressed to the sending connection, and nothing else. -/
theorem whisper_unknown_target (clients : Registry) (sender raw : String)
    (clientSock : Nat) (cmdWord targetName body : String)
    (hp : pySplit2 raw = [cmdWord, targetName, body])
    (ht : findSocketByName clients targetName = none) :
    handleWhisper clients sender raw clientSock =
      [Ev.send clientSock (notFoundText targetName)] := by
  simp [handleWhisper, hp, ht]

/-- Claim C7, witness: whispering to the unregistered nickname Ghost sends
the not-found notice back to the sender alone. -/
theorem whisper_unknown_target_witness :
    handleWhisper [(0, "A"), (1, "B")] "A" "/w Ghost hi" 0 =
      [Ev.send 0 (notFoundText "Ghost")] :=
  whisper_unknown_target [(0, "A"), (1, "B")] "A" "/w Ghost hi" 0
    "/w" "Ghost" "hi" (by decide) (by decide)

/-- Claim C2: a whisper whose target nickname resolves delivers the
whisper frame to the target and, unless the resolved target socket is the
sender's own socket, the confirmation frame to the sender; exactly two
send events occur on success and exactly one in the self-whisper case. -/
theorem whisper_success_deliveries (clients : Registry)
    (sender raw : String) (clientSock targetSock : Nat)
    (cmdWord targetName body : String)
    (hp : pySplit2 raw = [cmdWord, targetName, body])
    (ht : findSocketByName clients targetName = some targetSock) :
    handleWhisper clients sender raw clientSock =
      (if targetSock = clientSock then
        [Ev.send targetSock (whisperText sender body)]
      else
        [Ev.send targetSock (whisperText sender body),
         Ev.send clientSock (whisperSentText sender targetName body)]) ∧
    (handleWhisper clients sender raw clientSock).length =
      (if targetSock = clientSock then 1 else 2) := by
  have key : handleWhisper clients sender raw clientSock =
      (if targetSock = clientSock then
        [Ev.send targetSock (whisperText sender body)]
      else
        [Ev.send targetSock (whisperText sender body),
         Ev.send clientSock (whisperSentText sender targetName body)]) := by
    by_cases h : targetSock = clientSock <;>
      simp [handleWhisper, hp, ht, h]
  refine ⟨key, ?_⟩
  rw [key]
  by_cases h : targetSock = clientSock <;> simp [h]

/-- Claim C2, witness: A whispering to B produces the whisper frame to B
and the confirmation to A, two deliveries. -/
theorem whisper_success_deliveries_witness :
    handleWhisper [(0, "A"), (1, "B")] "A" "/w B hi" 0 =
      (if 1 = 0 then
        [Ev.send 1 (whisperText "A" "hi")]
      else
        [Ev.send 1 (whisperText "A" "hi"),
         Ev.send 0 (whisperSentText "A" "B" "hi")]) ∧
    (handleWhisper [(0, "A"), (1, "B")] "A" "/w B hi" 0).length =
      (if 1 = 0 then 1 else 2) :=
  whisper_success_deliveries [(0, "A"), (1, "B")] "A" "/w B hi" 0 1
    "/w" "B" "hi" (by decide) (by decide)

/-- Claim C6: a received line that after trimming begins with a whisper
prefix is handled by the whisper routine with the registry untouched and
the session left active; when its split(' ', 2) parse has fewer than three
fields the whisper routine sends exactly the usage notice to the sending
connection and nothing to anyone else. -/
theorem whisper_usage_notice (clients : Registry) (fails : Nat → Bool)
    (nickname : String) (clientSock : Nat) (data : String)
    (hw : (strLeads "/w " (pyStrip data)
      || strLeads "/귓속말 " (pyStrip data)) = true) :
    handleLine clients fails nickname clientSock data =
      (handleWhisper clients nickname (pyStrip data) clientSock, clients,
       SessionStep.active) ∧
    ((pySplit2 (pyStrip data)).length < 3 →
      handleWhisper clients nickname (pyStrip data) clientSock =
        [Ev.send clientSock usageText]) := by
  have hq : (pyStrip data == quitToken) = false := by
    have hw2 : strLeads "/w " (pyStrip data) = true ∨
        strLeads "/귓속말 " (pyStrip data) = true := by
      simpa using hw
    rcases hw2 with h | h
    · exact ne_quit_of_lead "/w " (pyStrip data) (by decide) h
    · exact ne_quit_of_lead "/귓속말 " (pyStrip data) (by decide) h
  constructor
  · simp [handleLine, hq, hw]
  · intro hlen
    simp [handleWhisper, hlen]

/-- Claim C6, witness: the two-field command "/w B" yields the usage
notice to the sender only, with the registry unchanged and the session
still active. -/
theorem whisper_usage_notice_witness :
    handleLine [(0, "A"), (1, "B")] (fun _ => false) "A" 0 "/w B" =
      (handleWhisper [(0, "A"), (1, "B")] "A" (pyStrip "/w B") 0,
       [(0, "A"), (1, "B")], SessionStep.active) ∧
    handleWhisper [(0, "A"), (1, "B")] "A" (pyStrip "/w B") 0 =
      [Ev.send 0 usageText] := by
  have h := whisper_usage_notice [(0, "A"), (1, "B")] (fun _ => false)
    "A" 0 "/w B" (by decide)
  exact ⟨h.1, h.2 (by decide)⟩

/-- Claim C9: a received chunk that trims to neither the quit token nor a
whisper command is broadcast as the chat frame built from the trimmed
text, with the session staying active; and a chunk consisting only of
whitespace trims to the empty string, so it is still classified as chat
and broadcast with an empty body. -/
theorem inbound_trimmed_chat (clients : Registry) (fails : Nat → Bool)
    (nickname : String) (clientSock : Nat) (data : String)
    (hq : (pyStrip data == quitToken) = false)
    (hw : (strLeads "/w " (pyStrip data)
      || strLeads "/귓속말 " (pyStrip data)) = false) :
    handleLine clients fails nickname clientSock data =
      ((broadcastChat clients fails nickname (pyStrip data)).1,
       (broadcastChat clients fails nickname (pyStrip data)).2,
       SessionStep.active) ∧
    (data.data.all isPySpace = true → pyStrip data = "") := by
  constructor
  · simp only [handleLine, hq, hw]
    simp
  · exact pyStrip_of_all_space data

/-- Claim C9, witness: the whitespace-only chunk is delivered as a chat
frame with empty body rather than ignored. -/
theorem inbound_trimmed_chat_witness :
    handleLine [(0, "A"), (1, "B")] (fun _ => false) "A" 0 " \t " =
      ((broadcastChat [(0, "A"), (1, "B")] (fun _ => false)
          "A" (pyStrip " \t ")).1,
       (broadcastChat [(0, "A"), (1, "B")] (fun _ => false)
          "A" (pyStrip " \t ")).2,
       SessionStep.active) ∧
    pyStrip " \t " = "" := by
  have h := inbound_trimmed_chat [(0, "A"), (1, "B")] (fun _ => false)
    "A" 0 " \t " (by decide) (by decide)
  exact ⟨h.1, h.2 (by decide)⟩

/-- Claim C10: when the first line trims to a non-empty nickname, the
session is registered before the join announcement is broadcast, so the
trace of the registration step delivers the join notice to the joining
socket itself as well as to every previously registered connection, and
the joining socket is in the resulting registry. -/
theorem join_announced_after_registration (clients : Registry)
    (clientSock : Nat) (firstData : String)
    (hn : pyStrip firstData ≠ "") :
    Ev.send clientSock (systemText (joinText (pyStrip firstData))) ∈
      (registerFirstLine clients (fun _ => false) clientSock firstData).1 ∧
    (∀ p ∈ clients,
      Ev.send p.1 (systemText (joinText (pyStrip firstData))) ∈
        (registerFirstLine clients (fun _ => false) clientSock firstData).1) ∧
    (clientSock, pyStrip firstData) ∈
      (registerFirstLine clients (fun _ => false) clientSock firstData).2.1 := by
  have hb : (pyStrip firstData == "") = false := beq_eq_false_iff_ne.mpr hn
  have hreg : registerFirstLine clients (fun _ => false) clientSock firstData =
      ((broadcastSystem (registryInsert clients clientSock (pyStrip firstData))
          (fun _ => false) (joinText (pyStrip firstData))).1,
       (broadcastSystem (registryInsert clients clientSock (pyStrip firstData))
          (fun _ => false) (joinText (pyStrip firstData))).2, true) := by
    simp [registerFirstLine, hb]
  rw [hreg]
  refine ⟨?_, ?_, ?_⟩
  · show Ev.send clientSock (systemText (joinText (pyStrip firstData))) ∈
      (broadcast (registryInsert clients clientSock (pyStrip firstData))
        (fun _ => false) (systemText (joinText (pyStrip firstData)))).1
    refine broadcast_send_of_mem
      (registryInsert_self_mem clients clientSock (pyStrip firstData)) ?_
    rfl
  · intro p hp
    rcases registryInsert_key_mem clients clientSock (pyStrip firstData) hp
      with ⟨q, hq, hq1⟩
    rw [← hq1]
    show Ev.send q.1 (systemText (joinText (pyStrip firstData))) ∈
      (broadcast (registryInsert clients clientSock (pyStrip firstData))
        (fun _ => false) (systemText (joinText (pyStrip firstData)))).1
    refine broadcast_send_of_mem hq ?_
    rfl
  · show (clientSock, pyStrip firstData) ∈
      (broadcast (registryInsert clients clientSock (pyStrip firstData))
        (fun _ => false) (systemText (joinText (pyStrip firstData)))).2
    simp only [broadcast]
    exact List.mem_filter.mpr
      ⟨registryInsert_self_mem clients clientSock (pyStrip firstData), by simp⟩

/-- Claim C10, witness: a new session registering as A in a registry
already holding B receives its own join notice, B receives it too, and A
is registered afterwards. -/
theorem join_announced_after_registration_witness :
    Ev.send 0 (systemText (joinText (pyStrip "A"))) ∈
      (registerFirstLine [(1, "B")] (fun _ => false) 0 "A").1 ∧
    Ev.send 1 (systemText (joinText (pyStrip "A"))) ∈
      (registerFirstLine [(1, "B")] (fun _ => false) 0 "A").1 ∧
    (0, pyStrip "A") ∈
      (registerFirstLine [(1, "B")] (fun _ => false) 0 "A").2.1 := by
  have h := join_announced_after_registration [(1, "B")] 0 "A" (by decide)
  exact ⟨h.1, h.2.1 (1, "B") (by decide), h.2.2⟩

/-- Claim C5: removing a registered connection from the registry yields
its nickname, removing it again from the result yields none and changes
nothing, and the removal path inside broadcast (the one a stray write
failure triggers) emits only the broadcast payload itself, never a
departure notice of its own - so the departure announcement is left to
the owning session worker. -/
theorem registry_remove_idempotent (clients : Registry) (sock : Nat)
    (nick : String) (hnd : (clients.map Prod.fst).Nodup)
    (hreg : List.lookup sock clients = some nick) :
    (registryRemove clients sock).2 = some nick ∧
    registryRemove (registryRemove clients sock).1 sock =
      ((registryRemove clients sock).1, none) ∧
    (∀ fails text s payload,
      Ev.send s payload ∈
        (broadcast (registryRemove clients sock).1 fails text).1 →
      payload = text) := by
  refine ⟨?_, ?_, ?_⟩
  · rw [registryRemove_snd]
    exact hreg
  · exact registryRemove_of_not_mem _ _
      (registryRemove_not_mem clients sock hnd)
  · intro fails text s payload h
    exact broadcast_send_payload h

/-- Claim C5, witness: in a concrete registry the first removal of socket
0 returns its nickname and the second removal returns none, leaving the
registry untouched. -/
theorem registry_remove_idempotent_witness :
    (registryRemove [(0, "A"), (1, "B")] 0).2 = some "A" ∧
    registryRemove (registryRemove [(0, "A"), (1, "B")] 0).1 0 =
      ((registryRemove [(0, "A"), (1, "B")] 0).1, none) :=
  ⟨(registry_remove_idempotent [(0, "A"), (1, "B")] 0 "A"
      (by decide) (by decide)).1,
   (registry_remove_idempotent [(0, "A"), (1, "B")] 0 "A"
      (by decide) (by decide)).2.1⟩

/-- Claim C8: a broadcast deregisters exactly the connections whose write
fails, every send event it emits carries the broadcast payload (so the
dead-removal path never issues a departure announcement of its own), and
its trace acquires the lock exactly once at its head - broadcast is never
re-entered from within itself. -/
theorem broadcast_dead_removal_no_reentry (clients : Registry)
    (fails : Nat → Bool) (text : String) :
    (broadcast clients fails text).2 =
      clients.filter (fun p => !(fails p.1)) ∧
    (∀ p ∈ clients, fails p.1 = true →
      p ∉ (broadcast clients fails text).2) ∧
    (∀ s payload, Ev.send s payload ∈ (broadcast clients fails text).1 →
      payload = text) ∧
    (∃ rest, (broadcast clients fails text).1 = Ev.acquire :: rest ∧
      Ev.acquire ∉ rest) := by
  refine ⟨rfl, ?_, ?_, ?_⟩
  · intro p hp hf
    simp [broadcast, List.mem_filter, hf]
  · intro s payload h
    exact broadcast_send_payload h
  · refine ⟨_, rfl, ?_⟩
    intro hmem
    rw [List.append_assoc] at hmem
    rcases List.mem_append.mp hmem with h | h
    · rcases mem_sends_shape h with ⟨s, u, hsu⟩
      exact absurd hsu (by simp)
    · rcases List.mem_append.mp h with h2 | h2
      · rcases mem_closes_shape h2 with ⟨s, hs⟩
        exact absurd hs (by simp)
      · simp at h2

/-- Claim C8, witness: broadcasting to a registry where socket 1's write
fails leaves socket 1 deregistered. -/
theorem broadcast_dead_removal_no_reentry_witness :
    (1, "B") ∉ (broadcast [(0, "A"), (1, "B")] (fun s => s == 1) "x").2 :=
  (broadcast_dead_removal_no_reentry [(0, "A"), (1, "B")]
    (fun s => s == 1) "x").2.1 (1, "B") (by decide) (by decide)
